import Mathlib

/-!
Verification of the ASPOR document-pipeline orchestration code
(`aspor-intelligence/backend`).  Python strings are embedded as `List Char`,
DynamoDB records as structures, and every external service call (S3, Textract,
Bedrock, Lambda invoke) as an explicit parameter carrying that call's outcome.
Handlers become pure functions from those inputs to an outcome structure that
records the HTTP response, the status updates written to the run record, and
whether the exception was re-raised.
-/

/-- Python `str` values, embedded as lists of characters. -/
abbrev Str := List Char

/-- Python truthiness of a string: `bool(s)` is `True` iff `s` is non-empty. -/
def pyTruthy (s : Str) : Bool := !s.isEmpty

/-- Python `str.strip()`: remove whitespace from both ends. -/
def pyStrip (s : Str) : Str :=
  (((s.dropWhile Char.isWhitespace).reverse).dropWhile Char.isWhitespace).reverse

/-- Python `needle in hay` on strings: substring test. -/
def pyContains (hay needle : Str) : Bool :=
  (List.range (hay.length + 1)).any fun i => needle.isPrefixOf (hay.drop i)

/-- Python `s.startswith(p)`. -/
def pyStartsWith (s p : Str) : Bool := p.isPrefixOf s

/-- If every element surviving `dropWhile p` satisfies `p`, every element of
the original list does. -/
theorem forall_of_forall_dropWhile (p : Char → Bool) :
    ∀ l : Str, (∀ x ∈ l.dropWhile p, p x) → ∀ x ∈ l, p x := by
  intro l
  induction l with
  | nil => intro _ x hx; cases hx
  | cons a l ih =>
    intro h x hx
    by_cases hpa : p a
    · rcases List.mem_cons.1 hx with rfl | hxl
      · exact hpa
      · exact ih (by simpa [List.dropWhile_cons, hpa] using h) x hxl
    · exact h x (by simpa [List.dropWhile_cons, hpa] using hx)

/-- A string containing a non-whitespace character does not strip to empty. -/
theorem pyStrip_ne_nil {s : Str} {c : Char} (hc : c ∈ s)
    (hw : ¬ c.isWhitespace) : pyStrip s ≠ [] := by
  intro h
  unfold pyStrip at h
  have h1 : ((s.dropWhile Char.isWhitespace).reverse).dropWhile Char.isWhitespace = [] := by
    simpa using congrArg List.reverse h
  have h2 : ∀ x ∈ (s.dropWhile Char.isWhitespace).reverse, Char.isWhitespace x :=
    List.dropWhile_eq_nil_iff.1 h1
  have h3 : ∀ x ∈ s.dropWhile Char.isWhitespace, Char.isWhitespace x := by
    intro x hx
    exact h2 x (List.mem_reverse.2 hx)
  exact hw (forall_of_forall_dropWhile Char.isWhitespace s h3 c hc)

/-- `pyStrip` of a run of `'a'`s is the run itself. -/
theorem pyStrip_replicate_a (n : Nat) :
    pyStrip (List.replicate n 'a') = List.replicate n 'a' := by
  have hdrop : ∀ m : Nat,
      (List.replicate m 'a').dropWhile Char.isWhitespace = List.replicate m 'a' := by
    intro m
    cases m with
    | zero => rfl
    | succ k => simp [List.replicate_succ, List.dropWhile_cons]
  unfold pyStrip
  rw [hdrop, List.reverse_replicate, hdrop, List.reverse_replicate]

namespace ExtractV2

/-! ## `extract_lambda_v2.py` -/

/-- The truncation marker appended at the 15000-character cap
(`"\n\n[Texto truncado por límite de caracteres]"`). -/
def truncMarker : Str := "\n\n[Texto truncado por límite de caracteres]".toList

/-- The non-empty placeholder stored when no method produced usable text. -/
def placeholderText : Str :=
  "No se pudo extraer texto del documento. Por favor, verifica que el documento contiene texto legible.".toList

/-- Error text produced when the Bedrock fallback itself raised `e`
(`f"Error: No se pudo procesar el documento. {str(e)}"`). -/
def bedrockErrorText (e : Str) : Str :=
  "Error: No se pudo procesar el documento. ".toList ++ e

/-- Lines 289-294 of `extract_lambda_v2.py`: validate and limit the extracted
text before storing it.  Falsy or whitespace-only text becomes the
placeholder; text over 15000 characters is truncated with the marker. -/
def validateAndLimit (t : Str) : Str :=
  if ¬ pyTruthy t ∨ (pyStrip t).length = 0 then placeholderText
  else if 15000 < t.length then t.take 15000 ++ truncMarker
  else t

/-- A `Block` of a Textract `detect_document_text` response. -/
structure Block where
  blockType : Str
  text : Str

/-- Concatenate the text of `LINE` blocks, one per line, as the loops in
`quick_textract_attempt` do. -/
def textFromBlocks (blocks : List Block) : Str :=
  blocks.foldl (fun acc b =>
    if b.blockType = "LINE".toList then acc ++ b.text ++ ['\n'] else acc) []

/-- `quick_textract_attempt` (lines 138-198).  `resp` is the Textract
response (`none` if the call raised), `tookTooLong` models
`elapsed > max_wait_seconds`.  Returns the text only when its stripped
length exceeds 50; otherwise `none` (treat as failure). -/
def quickTextractAttempt (fileExtension : Str) (resp : Option (List Block))
    (tookTooLong : Bool) : Option Str :=
  match resp with
  | none => none
  | some blocks =>
    if fileExtension = "pdf".toList then
      if tookTooLong then none
      else
        let t := textFromBlocks blocks
        if 50 < (pyStrip t).length then some t else none
    else if fileExtension = "png".toList ∨ fileExtension = "jpg".toList
        ∨ fileExtension = "jpeg".toList then
      let t := textFromBlocks blocks
      if 50 < (pyStrip t).length then some t else none
    else none

/-- Lines 254-295 of the handler: pick the extraction strategy.  Returns
`(extractionMethod, extractedText)` exactly as the Python leaves these two
variables before validation.  `bedrockResult` is the outcome of
`process_document_with_bedrock_direct` (`Except.error e` if it raised). -/
def chooseExtraction (remainingTime : Nat) (fileExtension : Str)
    (textractResp : Option (List Block)) (tookTooLong : Bool)
    (bedrockResult : Except Str Str) : Str × Str :=
  if 20000 < remainingTime then
    match quickTextractAttempt fileExtension textractResp tookTooLong with
    | some t =>
      if 50 < (pyStrip t).length then ("textract".toList, t)
      else bedrockBranch bedrockResult
    | none => bedrockBranch bedrockResult
  else bedrockBranch bedrockResult
where
  /-- The `bedrock_direct` branch: use the Bedrock result, or an
  `"Error: ..."` string if Bedrock raised. -/
  bedrockBranch : Except Str Str → Str × Str
  | .ok t => ("bedrock_direct".toList, t)
  | .error e => ("bedrock_direct".toList, bedrockErrorText e)

/-- Outcome of one run of the `extract_lambda_v2` handler. -/
structure ExtractOutcome where
  storedText : Str
  textKeyWritten : Bool
  recordStatus : Str
  extractionMethod : Str
  httpStatus : Nat
  bodyStatus : Str
  deriving Repr, DecidableEq

/-- The happy-path body of `handler` (lines 223-347): choose a strategy,
validate/limit the text, store the blob, update the record to `EXTRACTED`
and answer HTTP 200. -/
def handlerRun (remainingTime : Nat) (fileExtension : Str)
    (textractResp : Option (List Block)) (tookTooLong : Bool)
    (bedrockResult : Except Str Str) : ExtractOutcome :=
  let mt := chooseExtraction remainingTime fileExtension textractResp
    tookTooLong bedrockResult
  let finalText := validateAndLimit mt.2
  { storedText := finalText
    textKeyWritten := true
    recordStatus := "EXTRACTED".toList
    extractionMethod := mt.1
    httpStatus := 200
    bodyStatus := "EXTRACTED".toList }

end ExtractV2

namespace ExtractBasic

/-! ## `extract_lambda.py` (the handler wired up by the CDK stack) -/

/-- Placeholder used when no text was extracted (line 168). -/
def placeholderText : Str :=
  "No se pudo extraer texto del documento. Por favor, verifica que el documento contiene texto legible.".toList

/-- Lines 166-168 of `extract_lambda.py`: the only post-processing before the
blob is stored.  There is no truncation in this handler. -/
def validateText (t : Str) : Str :=
  if ¬ pyTruthy t ∨ (pyStrip t).length = 0 then placeholderText
  else t

/-- Lines 170-177: the blob written to `extracted/<runId>.txt` is exactly the
validated text. -/
def storedBlob (raw : Str) : Str := validateText raw

end ExtractBasic

namespace AnalyzeAsync

/-! ## `analyze_lambda_async.py` (the analyze entry point wired up by the CDK
stack): duplicate checks, then fire-and-forget dispatch of the background
worker. -/

/-- The fields of the run record the handler reads
(`item.get('analysisResult', '')` defaults to the empty string). -/
structure RunRecord where
  status : Str
  analysisResult : Str
  fileKey : Option Str
  deriving Repr, DecidableEq

/-- Outcome of one run of the handler.  `statusUpdates` lists the `status`
values written to the record, in order; `workerDispatched` is whether
`lambda_client.invoke` was issued. -/
structure Outcome where
  statusCode : Nat
  bodyStatus : Str
  cachedAnalysis : Option Str
  statusUpdates : List Str
  errorRecorded : Option Str
  workerDispatched : Bool
  deriving Repr, DecidableEq

/-- Lines 40-177 of `handler`: the record found by the runId query is `rec`
(`none` when the query returned no items); `invokeRaises` is whether
`lambda_client.invoke` raised. -/
def handler (rec : Option RunRecord) (invokeRaises : Bool) : Outcome :=
  match rec with
  | none =>
    { statusCode := 404, bodyStatus := "ERROR".toList, cachedAnalysis := none
      statusUpdates := [], errorRecorded := none, workerDispatched := false }
  | some item =>
    if item.status = "COMPLETED".toList ∧ pyTruthy item.analysisResult then
      { statusCode := 200, bodyStatus := "COMPLETED".toList
        cachedAnalysis := some item.analysisResult
        statusUpdates := [], errorRecorded := none, workerDispatched := false }
    else if item.status = "PROCESSING_ASYNC".toList
        ∨ item.status = "ANALYZING".toList then
      { statusCode := 202, bodyStatus := "PROCESSING".toList
        cachedAnalysis := none
        statusUpdates := [], errorRecorded := none, workerDispatched := false }
    else
      match item.fileKey with
      | none =>
        { statusCode := 400, bodyStatus := "ERROR".toList, cachedAnalysis := none
          statusUpdates := [], errorRecorded := none, workerDispatched := false }
      | some _ =>
        if invokeRaises then
          -- invoke failed: FAILED update, re-raise, outer except answers 500
          { statusCode := 500, bodyStatus := "ERROR".toList, cachedAnalysis := none
            statusUpdates := ["PROCESSING_ASYNC".toList, "FAILED".toList]
            errorRecorded := some "Failed to start async processing".toList
            workerDispatched := false }
        else
          { statusCode := 202, bodyStatus := "PROCESSING".toList
            cachedAnalysis := none
            statusUpdates := ["PROCESSING_ASYNC".toList]
            errorRecorded := none, workerDispatched := true }

end AnalyzeAsync

namespace ProcessAsync

/-! ## `process_async_lambda.py`: the background worker. -/

/-- The record fields the worker reads. -/
structure RunRecord where
  fileKey : Option Str
  deriving Repr, DecidableEq

/-- Outcome of one worker run.  `statusUpdates` pairs each written `status`
with the `errorMessage` written alongside it (if any). -/
structure Outcome where
  statusUpdates : List (Str × Option Str)
  analysisStored : Option Str
  statusCode : Option Nat
  reRaised : Bool
  deriving Repr, DecidableEq

/-- `handler` (lines 58-209).  `rec` is the queried record; `s3Doc` the
result of reading the uploaded document (`Except.error e` if it raised);
`bedrockResult` the generation-service call's outcome.  Any exception lands
in the `except` block at lines 193-209, which writes `FAILED` with
`str(e)[:500]` when `pk`/`sk` are in scope, then re-raises. -/
def handler (rec : Option RunRecord) (s3Doc : Except Str (List UInt8))
    (bedrockResult : Except Str Str) : Outcome :=
  match rec with
  | none =>
    -- raised before pk/sk exist: no FAILED update is possible
    { statusUpdates := [], analysisStored := none, statusCode := none
      reRaised := true }
  | some item =>
    match item.fileKey with
    | none =>
      { statusUpdates :=
          [("FAILED".toList, some (("No fileKey found in record".toList).take 500))]
        analysisStored := none, statusCode := none, reRaised := true }
    | some _ =>
      match s3Doc with
      | .error e =>
        { statusUpdates := [("PROCESSING_ASYNC".toList, none),
            ("FAILED".toList, some (e.take 500))]
          analysisStored := none, statusCode := none, reRaised := true }
      | .ok _ =>
        match bedrockResult with
        | .error e =>
          { statusUpdates := [("PROCESSING_ASYNC".toList, none),
              ("FAILED".toList, some (e.take 500))]
            analysisStored := none, statusCode := none, reRaised := true }
        | .ok result =>
          { statusUpdates := [("PROCESSING_ASYNC".toList, none),
              ("COMPLETED".toList, none)]
            analysisStored := some result, statusCode := some 200
            reRaised := false }

end ProcessAsync

namespace AnalyzeFinal

/-! ## `analyze_lambda_final.py`: synchronous analysis with a document-vision
fallback. -/

/-- Outcome of one run of the handler. -/
structure Outcome where
  statusCode : Nat
  method : Str
  analysis : Option Str
  statusUpdates : List Str
  errorRecorded : Option Str
  reRaised : Bool
  deriving Repr, DecidableEq

/-- The response of the `except` block at lines 304-316: HTTP 500, and the
run record is left untouched (no `FAILED` update, no re-raise). -/
def failureResponse : Outcome :=
  { statusCode := 500, method := [], analysis := none
    statusUpdates := [], errorRecorded := none, reRaised := false }

/-- Lines 185-206: resolve the text source.  Returns
`(extracted_text, use_vision)`.  With a caller-supplied `textKey` whose load
succeeded, the text is rejected for vision when it starts with `"Error:"`
or its stripped length is below 100. -/
def resolveText (textKey : Option Str) (s3Load : Except Str Str) :
    Option Str × Bool :=
  match textKey with
  | some _ =>
    match s3Load with
    | .ok t =>
      (some t, pyStartsWith t "Error:".toList ∨ (pyStrip t).length < 100)
    | .error _ => (none, true)
  | none => (none, true)

/-- Lines 247-302: the text-analysis branch, reached with the resolved
`extracted_text`; raises (into the outer `except`) when no text of stripped
length above 50 is at hand. -/
def textBranch (extractedText : Option Str) (textBedrock : Except Str Str) :
    Outcome :=
  match extractedText with
  | some t =>
    if 50 < (pyStrip t).length then
      match textBedrock with
      | .ok r =>
        { statusCode := 200, method := "text_analysis".toList
          analysis := some r, statusUpdates := ["COMPLETED".toList]
          errorRecorded := none, reRaised := false }
      | .error _ => failureResponse
    else failureResponse  -- raise "No valid text or document available"
  | none => failureResponse

/-- Lines 157-316 of `handler`.  `fileKey` is the record's original file
reference; `visionResult` and `textBedrock` are the two possible
generation-service calls' outcomes. -/
def handler (textKey : Option Str) (s3Load : Except Str Str)
    (fileKey : Option Str) (visionResult : Except Str Str)
    (textBedrock : Except Str Str) : Outcome :=
  let rt := resolveText textKey s3Load
  if rt.2 ∧ fileKey.isSome then
    match visionResult with
    | .ok r =>
      { statusCode := 200, method := "document_vision".toList
        analysis := some r, statusUpdates := ["COMPLETED".toList]
        errorRecorded := none, reRaised := false }
    | .error _ =>
      -- fall back to text if available, else re-raise into the outer except
      if rt.1 = none then failureResponse else textBranch rt.1 textBedrock
  else textBranch rt.1 textBedrock

end AnalyzeFinal

namespace AnalyzeImproved

/-! ## `analyze_lambda_improved.py`: text-only analysis with a three-step
text-source resolution and failure tracking. -/

/-- Python falsiness of the `extracted_text` variable: `None` or `""`. -/
def falsyText : Option Str → Bool
  | none => true
  | some t => t.isEmpty

/-- Lines 120-162: three-step text-source resolution.  Returns
`(extracted_text, text_source)`.  `s3Explicit` is the load of the
caller-supplied `textKey`; `dbTextExtracted` the record's `textExtracted`
attribute; `s3Recon` the load of the reconstructed `extracted/<runId>.txt`
key (attempted only when no `textKey` was supplied). -/
def resolveText (textKey : Option Str) (s3Explicit : Except Str Str)
    (dbTextExtracted : Option Str) (s3Recon : Except Str Str) :
    Option Str × Str :=
  -- Method 1: explicit textKey
  let r1 : Option Str × Str :=
    match textKey with
    | some _ =>
      match s3Explicit with
      | .ok t => (some t, "s3".toList)
      | .error _ => (none, "unknown".toList)
    | none => (none, "unknown".toList)
  if ¬ falsyText r1.1 then r1
  else
    -- Method 2: textExtracted on the record, unless it is a length indicator
    let r2 : Option Str × Str :=
      match dbTextExtracted with
      | some t =>
        if pyContains t "caracteres".toList then (r1.1, r1.2)
        else (some t, "dynamodb".toList)
      | none => (r1.1, r1.2)
    if ¬ falsyText r2.1 then r2
    else
      -- Method 3: reconstructed key, only when no textKey was supplied
      match textKey with
      | some _ => r2
      | none =>
        match s3Recon with
        | .ok t => (some t, "s3_reconstructed".toList)
        | .error _ => r2

/-- Outcome of one run of the handler. -/
structure Outcome where
  statusCode : Nat
  textUsed : Option Str
  textSource : Str
  statusUpdates : List Str
  errorRecorded : Option Str
  reRaised : Bool
  deriving Repr, DecidableEq

/-- The `except` block at lines 280-310: record `FAILED` with the error
truncated to 500 characters and answer HTTP 500 without re-raising. -/
def failureOutcome (msg : Str) (src : Str) : Outcome :=
  { statusCode := 500, textUsed := none, textSource := src
    statusUpdates := ["FAILED".toList], errorRecorded := some (msg.take 500)
    reRaised := false }

/-- Lines 90-310 of `handler`: resolve the text, validate it (raise when it
is missing or its stripped length is below 10 — an `"Error:"` prefix only
changes the message), truncate to 15000 characters without a marker, and
run the text analysis. -/
def handler (textKey : Option Str) (s3Explicit : Except Str Str)
    (dbTextExtracted : Option Str) (s3Recon : Except Str Str)
    (bedrockResult : Except Str Str) : Outcome :=
  let rs := resolveText textKey s3Explicit dbTextExtracted s3Recon
  match rs.1 with
  | none => failureOutcome "No valid text available for analysis".toList rs.2
  | some t =>
    if t.isEmpty ∨ (pyStrip t).length < 10 then
      failureOutcome
        (if pyStartsWith t "Error:".toList then
          "Extraction failed: ".toList ++ t
        else "No valid text available for analysis".toList) rs.2
    else
      let used := if 15000 < t.length then t.take 15000 else t
      match bedrockResult with
      | .ok _ =>
        { statusCode := 200, textUsed := some used, textSource := rs.2
          statusUpdates := ["ANALYZING".toList, "COMPLETED".toList]
          errorRecorded := none, reRaised := false }
      | .error e =>
        { statusCode := 500, textUsed := some used, textSource := rs.2
          statusUpdates := ["ANALYZING".toList, "FAILED".toList]
          errorRecorded := some (("Error calling Bedrock: ".toList ++ e).take 500)
          reRaised := false }

end AnalyzeImproved

/-! ## Vision-model extraction calls and their size handling -/

deriving instance DecidableEq for Except

/-- Result of a vision-model extraction attempt: either an exception raised
before the request went out, or a request actually sent to the generation
service carrying the full document, with the call's outcome. -/
inductive VisionOutcome where
  | rejectedBeforeSend (msg : Str)
  | sent (doc : List UInt8) (result : Except Str Str)
  deriving DecidableEq

/-- Whether the attempt was rejected before any request was sent. -/
def VisionOutcome.wasRejected : VisionOutcome → Bool
  | .rejectedBeforeSend _ => true
  | .sent _ _ => false

namespace ExtractBackup

/-- `process_with_bedrock_vision` in `extract_lambda_backup.py`
(lines 111-189).  `doc_size_mb > 2` on exact byte counts is
`2 * 1048576 < doc.length`; documents over that ceiling raise before the
request is prepared or sent. -/
def processWithBedrockVision (bedrockAvailable : Bool) (doc : List UInt8)
    (call : Except Str Str) : VisionOutcome :=
  if ¬ bedrockAvailable then
    .rejectedBeforeSend "Bedrock Vision no está disponible".toList
  else if 2 * 1048576 < doc.length then
    .rejectedBeforeSend "Documento grande requiere procesamiento especial".toList
  else .sent doc call

end ExtractBackup

namespace ExtractV2

/-- `process_document_with_bedrock_direct` in `extract_lambda_v2.py`
(lines 47-136).  The size comparison against `max_size_mb = 4.5` at lines
63-68 only prints `"truncating..."` and the code proceeds to base64-encode
and send the whole document regardless; an empty response text raises after
the call returned. -/
def processDocumentWithBedrockDirect (bedrockAvailable : Bool)
    (doc : List UInt8) (call : Except Str Str) : VisionOutcome :=
  if ¬ bedrockAvailable then
    .rejectedBeforeSend "Bedrock no está disponible".toList
  else
    .sent doc
      (match call with
       | .ok t =>
         if t.isEmpty then
           .error "Bedrock no pudo extraer texto del documento".toList
         else .ok t
       | .error e => .error e)

end ExtractV2

namespace BackupPoll

/-! ## `get_document_analysis` in `extract_lambda_backup.py` (lines 56-89):
bounded polling with capped progressive delay. -/

/-- One poll's observation: the job status, or a `ClientError` raised by the
status call itself. -/
inductive Poll where
  | succeeded
  | failed (msg : Str)
  | inProgress
  | clientError
  deriving DecidableEq

/-- Result of the polling loop. -/
inductive Result where
  | ok (attempt : Nat)
  | ocrFailed (msg : Str)
  | clientRaised
  | timedOut
  deriving DecidableEq

/-- `max_tries = 5`. -/
def maxTries : Nat := 5

/-- `delay = min(initial_delay * (1.5 ** attempt), max_delay)` with
`initial_delay = 0.5`, `max_delay = 1.5`; all values are exact dyadic
rationals, so the float arithmetic is modelled exactly. -/
def delaySchedule (attempt : Nat) : ℚ := min (1/2 * (3/2) ^ attempt) (3/2)

/-- The `for attempt in range(max_tries)` loop, by recursion on the number
of remaining iterations.  A `ClientError` re-raises only on the last
attempt (`attempt == max_tries - 1`, i.e. no iteration remains). -/
def pollFrom (polls : Nat → Poll) : Nat → Nat → Result
  | _, 0 => .timedOut
  | attempt, rest + 1 =>
    match polls attempt with
    | .succeeded => .ok attempt
    | .failed m => .ocrFailed m
    | .inProgress => pollFrom polls (attempt + 1) rest
    | .clientError =>
      if rest = 0 then .clientRaised else pollFrom polls (attempt + 1) rest

/-- The whole loop: raise a timeout exception after `max_tries` fruitless
attempts. -/
def getDocumentAnalysis (polls : Nat → Poll) : Result :=
  pollFrom polls 0 maxTries

end BackupPoll

namespace BasicPoll

/-! ## `get_document_analysis` in `extract_lambda.py` (lines 35-51):
30 polls at a constant 2-second delay, no exception handling. -/

/-- One poll's observed job status. -/
inductive Poll where
  | succeeded
  | failed (msg : Str)
  | inProgress
  deriving DecidableEq

/-- Result of the polling loop. -/
inductive Result where
  | ok (attempt : Nat)
  | jobFailed (msg : Str)
  | timedOut
  deriving DecidableEq

/-- `max_tries = 30`. -/
def maxTries : Nat := 30

/-- `delay = 2`, the same before every repoll. -/
def delaySchedule (_ : Nat) : ℚ := 2

/-- The `for _ in range(max_tries)` loop. -/
def pollFrom (polls : Nat → Poll) : Nat → Nat → Result
  | _, 0 => .timedOut
  | attempt, rest + 1 =>
    match polls attempt with
    | .succeeded => .ok attempt
    | .failed m => .jobFailed m
    | .inProgress => pollFrom polls (attempt + 1) rest

/-- The whole loop: raise `"Textract job timed out"` when the attempts are
exhausted. -/
def getDocumentAnalysis (polls : Nat → Poll) : Result :=
  pollFrom polls 0 maxTries

end BasicPoll

namespace BackupPoll

/-- A successful poll result is reached within the iteration budget. -/
theorem pollFrom_ok_lt (polls : Nat → Poll) :
    ∀ (rest attempt a : Nat), pollFrom polls attempt rest = .ok a →
      a < attempt + rest := by
  intro rest
  induction rest with
  | zero => intro attempt a h; simp [pollFrom] at h
  | succ r ih =>
    intro attempt a h
    rw [pollFrom] at h
    cases hp : polls attempt <;> rw [hp] at h
    · simp at h; omega
    · simp at h
    · have := ih (attempt + 1) a h; omega
    · by_cases hr : r = 0
      · simp [hr] at h
      · rw [if_neg hr] at h
        have := ih (attempt + 1) a h; omega

/-- If every poll within the budget reports `IN_PROGRESS`, the loop raises
the timeout error. -/
theorem pollFrom_timedOut (polls : Nat → Poll) :
    ∀ (rest attempt : Nat),
      (∀ i, attempt ≤ i → i < attempt + rest → polls i = .inProgress) →
      pollFrom polls attempt rest = .timedOut := by
  intro rest
  induction rest with
  | zero => intro attempt _; rfl
  | succ r ih =>
    intro attempt h
    have hp : polls attempt = .inProgress := h attempt le_rfl (by omega)
    rw [pollFrom, hp]
    exact ih (attempt + 1) fun i h1 h2 => h i (by omega) (by omega)

/-- The loop returns the response at the first `SUCCEEDED` poll. -/
theorem pollFrom_first_succeeded (polls : Nat → Poll) :
    ∀ (rest attempt a : Nat), attempt ≤ a → a < attempt + rest →
      (∀ j, attempt ≤ j → j < a → polls j = .inProgress) →
      polls a = .succeeded → pollFrom polls attempt rest = .ok a := by
  intro rest
  induction rest with
  | zero => intro attempt a h1 h2 _ _; omega
  | succ r ih =>
    intro attempt a h1 h2 hj ha
    rcases eq_or_lt_of_le h1 with rfl | hlt
    · rw [pollFrom, ha]
    · have hp : polls attempt = .inProgress := hj attempt le_rfl hlt
      rw [pollFrom, hp]
      exact ih (attempt + 1) a (by omega) (by omega)
        (fun j hj1 hj2 => hj j (by omega) hj2) ha

/-- The loop raises at the first `FAILED` poll. -/
theorem pollFrom_first_failed (polls : Nat → Poll) :
    ∀ (rest attempt a : Nat) (m : Str), attempt ≤ a → a < attempt + rest →
      (∀ j, attempt ≤ j → j < a → polls j = .inProgress) →
      polls a = .failed m → pollFrom polls attempt rest = .ocrFailed m := by
  intro rest
  induction rest with
  | zero => intro attempt a m h1 h2 _ _; omega
  | succ r ih =>
    intro attempt a m h1 h2 hj ha
    rcases eq_or_lt_of_le h1 with rfl | hlt
    · rw [pollFrom, ha]
    · have hp : polls attempt = .inProgress := hj attempt le_rfl hlt
      rw [pollFrom, hp]
      exact ih (attempt + 1) a m (by omega) (by omega)
        (fun j hj1 hj2 => hj j (by omega) hj2) ha

end BackupPoll

namespace BasicPoll

/-- A successful poll result is reached within the iteration budget. -/
theorem basic_pollFrom_ok_lt (polls : Nat → Poll) :
    ∀ (rest attempt a : Nat), pollFrom polls attempt rest = .ok a →
      a < attempt + rest := by
  intro rest
  induction rest with
  | zero => intro attempt a h; simp [pollFrom] at h
  | succ r ih =>
    intro attempt a h
    rw [pollFrom] at h
    cases hp : polls attempt <;> rw [hp] at h
    · simp at h; omega
    · simp at h
    · have := ih (attempt + 1) a h; omega

/-- If every poll within the budget reports `IN_PROGRESS`, the loop raises
the timeout error. -/
theorem basic_pollFrom_timedOut (polls : Nat → Poll) :
    ∀ (rest attempt : Nat),
      (∀ i, attempt ≤ i → i < attempt + rest → polls i = .inProgress) →
      pollFrom polls attempt rest = .timedOut := by
  intro rest
  induction rest with
  | zero => intro attempt _; rfl
  | succ r ih =>
    intro attempt h
    have hp : polls attempt = .inProgress := h attempt le_rfl (by omega)
    rw [pollFrom, hp]
    exact ih (attempt + 1) fun i h1 h2 => h i (by omega) (by omega)

/-- The loop returns the response at the first `SUCCEEDED` poll. -/
theorem basic_pollFrom_first_succeeded (polls : Nat → Poll) :
    ∀ (rest attempt a : Nat), attempt ≤ a → a < attempt + rest →
      (∀ j, attempt ≤ j → j < a → polls j = .inProgress) →
      polls a = .succeeded → pollFrom polls attempt rest = .ok a := by
  intro rest
  induction rest with
  | zero => intro attempt a h1 h2 _ _; omega
  | succ r ih =>
    intro attempt a h1 h2 hj ha
    rcases eq_or_lt_of_le h1 with rfl | hlt
    · rw [pollFrom, ha]
    · have hp : polls attempt = .inProgress := hj attempt le_rfl hlt
      rw [pollFrom, hp]
      exact ih (attempt + 1) a (by omega) (by omega)
        (fun j hj1 hj2 => hj j (by omega) hj2) ha

/-- The loop raises at the first `FAILED` poll. -/
theorem basic_pollFrom_first_failed (polls : Nat → Poll) :
    ∀ (rest attempt a : Nat) (m : Str), attempt ≤ a → a < attempt + rest →
      (∀ j, attempt ≤ j → j < a → polls j = .inProgress) →
      polls a = .failed m → pollFrom polls attempt rest = .jobFailed m := by
  intro rest
  induction rest with
  | zero => intro attempt a m h1 h2 _ _; omega
  | succ r ih =>
    intro attempt a m h1 h2 hj ha
    rcases eq_or_lt_of_le h1 with rfl | hlt
    · rw [pollFrom, ha]
    · have hp : polls attempt = .inProgress := hj attempt le_rfl hlt
      rw [pollFrom, hp]
      exact ih (attempt + 1) a m (by omega) (by omega)
        (fun j hj1 hj2 => hj j (by omega) hj2) ha

end BasicPoll

/-! ## Claims -/

/-- **C7.** The asynchronous OCR job polling loops (`get_document_analysis`
in `extract_lambda_backup.py` and in `extract_lambda.py`) perform at most a
bounded number of polls (5, resp. 30) with a nondecreasing delay capped at a
maximum (min(0.5·1.5^k, 1.5), resp. a constant 2); they return the response
at the first `SUCCEEDED` poll, raise at the first `FAILED` poll, and raise a
timeout error once the retries are exhausted — being total functions by
structural recursion on the remaining attempts, the loops always
terminate. -/
theorem c7_polling_bounded_and_terminates
    (polls : Nat → BackupPoll.Poll) (pollsB : Nat → BasicPoll.Poll) :
    (∀ a, BackupPoll.getDocumentAnalysis polls = .ok a → a < BackupPoll.maxTries)
    ∧ ((∀ i, i < BackupPoll.maxTries → polls i = .inProgress) →
        BackupPoll.getDocumentAnalysis polls = .timedOut)
    ∧ (∀ a, a < BackupPoll.maxTries →
        (∀ j, j < a → polls j = .inProgress) → polls a = .succeeded →
        BackupPoll.getDocumentAnalysis polls = .ok a)
    ∧ (∀ a m, a < BackupPoll.maxTries →
        (∀ j, j < a → polls j = .inProgress) → polls a = .failed m →
        BackupPoll.getDocumentAnalysis polls = .ocrFailed m)
    ∧ (∀ i j, i ≤ j → BackupPoll.delaySchedule i ≤ BackupPoll.delaySchedule j)
    ∧ (∀ i, BackupPoll.delaySchedule i ≤ 3/2)
    ∧ (∀ a, BasicPoll.getDocumentAnalysis pollsB = .ok a → a < BasicPoll.maxTries)
    ∧ ((∀ i, i < BasicPoll.maxTries → pollsB i = .inProgress) →
        BasicPoll.getDocumentAnalysis pollsB = .timedOut)
    ∧ (∀ a, a < BasicPoll.maxTries →
        (∀ j, j < a → pollsB j = .inProgress) → pollsB a = .succeeded →
        BasicPoll.getDocumentAnalysis pollsB = .ok a)
    ∧ (∀ a m, a < BasicPoll.maxTries →
        (∀ j, j < a → pollsB j = .inProgress) → pollsB a = .failed m →
        BasicPoll.getDocumentAnalysis pollsB = .jobFailed m)
    ∧ (∀ i j, i ≤ j → BasicPoll.delaySchedule i ≤ BasicPoll.delaySchedule j)
    ∧ (∀ i, BasicPoll.delaySchedule i ≤ 2) := by
  refine ⟨?_, ?_, ?_, ?_, ?_, ?_, ?_, ?_, ?_, ?_, ?_, ?_⟩
  · intro a h
    simpa using BackupPoll.pollFrom_ok_lt polls BackupPoll.maxTries 0 a h
  · intro h
    exact BackupPoll.pollFrom_timedOut polls BackupPoll.maxTries 0
      (fun i _ h2 => h i (by simpa using h2))
  · intro a ha hj hs
    exact BackupPoll.pollFrom_first_succeeded polls BackupPoll.maxTries 0 a
      (Nat.zero_le a) (by simpa using ha) (fun j _ h2 => hj j h2) hs
  · intro a m ha hj hf
    exact BackupPoll.pollFrom_first_failed polls BackupPoll.maxTries 0 a m
      (Nat.zero_le a) (by simpa using ha) (fun j _ h2 => hj j h2) hf
  · intro i j hij
    unfold BackupPoll.delaySchedule
    refine min_le_min ?_ le_rfl
    exact mul_le_mul_of_nonneg_left
      (pow_le_pow_right₀ (by norm_num) hij) (by norm_num)
  · intro i
    exact min_le_right _ _
  · intro a h
    simpa using BasicPoll.basic_pollFrom_ok_lt pollsB BasicPoll.maxTries 0 a h
  · intro h
    exact BasicPoll.basic_pollFrom_timedOut pollsB BasicPoll.maxTries 0
      (fun i _ h2 => h i (by simpa using h2))
  · intro a ha hj hs
    exact BasicPoll.basic_pollFrom_first_succeeded pollsB BasicPoll.maxTries 0 a
      (Nat.zero_le a) (by simpa using ha) (fun j _ h2 => hj j h2) hs
  · intro a m ha hj hf
    exact BasicPoll.basic_pollFrom_first_failed pollsB BasicPoll.maxTries 0 a m
      (Nat.zero_le a) (by simpa using ha) (fun j _ h2 => hj j h2) hf
  · intro i j _
    exact le_rfl
  · intro i
    exact le_rfl

/-- Concrete instances of the C7 polling theorem: an all-`IN_PROGRESS`
sequence times out on both loops, an immediately `SUCCEEDED` job returns at
attempt 0, and the delay schedule respects its cap. -/
theorem c7_polling_witness :
    BackupPoll.getDocumentAnalysis (fun _ => .inProgress) = .timedOut
    ∧ BackupPoll.getDocumentAnalysis (fun _ => .succeeded) = .ok 0
    ∧ BasicPoll.getDocumentAnalysis (fun _ => .inProgress) = .timedOut
    ∧ BackupPoll.delaySchedule 3 ≤ 3/2 := by
  refine ⟨?_, ?_, ?_, ?_⟩
  · exact (c7_polling_bounded_and_terminates (fun _ => .inProgress)
      (fun _ => .inProgress)).2.1 (fun i _ => rfl)
  · exact (c7_polling_bounded_and_terminates (fun _ => .succeeded)
      (fun _ => .inProgress)).2.2.1 0 (by decide)
      (fun j hj => absurd hj (Nat.not_lt_zero j)) rfl
  · exact (c7_polling_bounded_and_terminates (fun _ => .inProgress)
      (fun _ => .inProgress)).2.2.2.2.2.2.2.1 (fun i _ => rfl)
  · exact (c7_polling_bounded_and_terminates (fun _ => .inProgress)
      (fun _ => .inProgress)).2.2.2.2.2.1 3

/-- **C5.** A fast synchronous OCR attempt whose extracted text has stripped
length not exceeding 50 is not accepted: `quick_textract_attempt` returns
`None` for it, and the handler's strategy selection then chooses the direct
vision-model fallback (`extraction_method = "bedrock_direct"`). -/
theorem c5_short_ocr_not_accepted :
    (∀ (ext : Str) (blocks : List ExtractV2.Block) (tl : Bool),
      (pyStrip (ExtractV2.textFromBlocks blocks)).length ≤ 50 →
      ExtractV2.quickTextractAttempt ext (some blocks) tl = none)
    ∧ (∀ (remaining : Nat) (ext : Str)
        (resp : Option (List ExtractV2.Block)) (tl : Bool)
        (br : Except Str Str),
        ExtractV2.quickTextractAttempt ext resp tl = none →
        (ExtractV2.chooseExtraction remaining ext resp tl br).1
          = "bedrock_direct".toList) := by
  constructor
  · intro ext blocks tl h
    have hn : ¬ 50 < (pyStrip (ExtractV2.textFromBlocks blocks)).length :=
      not_lt.2 h
    unfold ExtractV2.quickTextractAttempt
    split_ifs <;> simp_all
  · intro remaining ext resp tl br h
    unfold ExtractV2.chooseExtraction
    by_cases hr : 20000 < remaining
    · rw [if_pos hr, h]
      cases br <;> rfl
    · rw [if_neg hr]
      cases br <;> rfl

/-- Concrete instance of C5: an empty Textract response yields no accepted
text and the strategy selection falls through to `bedrock_direct`. -/
theorem c5_witness :
    ExtractV2.quickTextractAttempt "pdf".toList (some []) false = none
    ∧ (ExtractV2.chooseExtraction 25000 "pdf".toList (some []) false
        (Except.error "x".toList)).1 = "bedrock_direct".toList := by
  have h1 := c5_short_ocr_not_accepted.1 "pdf".toList [] false (by decide)
  exact ⟨h1, c5_short_ocr_not_accepted.2 25000 "pdf".toList (some []) false
    (Except.error "x".toList) h1⟩

/-- **C8.** Extraction always stores a non-empty text blob: the validation
step maps every candidate text to a positive-length blob, replaces falsy or
whitespace-only text by the literal non-empty placeholder, and hence every
run of the `extract_lambda_v2` handler stores a non-empty blob. -/
theorem c8_extraction_nonempty :
    (∀ t : Str, 0 < (ExtractV2.validateAndLimit t).length)
    ∧ (∀ t : Str, ¬ pyTruthy t ∨ (pyStrip t).length = 0 →
        ExtractV2.validateAndLimit t = ExtractV2.placeholderText)
    ∧ (∀ (remaining : Nat) (ext : Str)
        (resp : Option (List ExtractV2.Block)) (tl : Bool)
        (br : Except Str Str),
        0 < (ExtractV2.handlerRun remaining ext resp tl br).storedText.length) := by
  have h0 : ∀ t : Str, 0 < (ExtractV2.validateAndLimit t).length := by
    intro t
    unfold ExtractV2.validateAndLimit
    split_ifs with h1 h2
    · decide
    · have hm : 0 < ExtractV2.truncMarker.length := by decide
      rw [List.length_append]
      omega
    · rcases not_or.1 h1 with ⟨hT, _⟩
      have ht : pyTruthy t = true := not_not.1 hT
      have : t ≠ [] := by
        intro hnil
        rw [hnil] at ht
        exact absurd ht (by decide)
      exact List.length_pos.2 this
  refine ⟨h0, ?_, ?_⟩
  · intro t h
    unfold ExtractV2.validateAndLimit
    rw [if_pos h]
  · intro remaining ext resp tl br
    exact h0 _

/-- Concrete instance of C8: empty raw text is stored as the non-empty
placeholder. -/
theorem c8_witness :
    ExtractV2.validateAndLimit [] = ExtractV2.placeholderText
    ∧ 0 < (ExtractV2.validateAndLimit []).length :=
  ⟨c8_extraction_nonempty.2.1 [] (Or.inl (by decide)),
    c8_extraction_nonempty.1 []⟩

/-- The validated blob built from a Bedrock-failure error text keeps its
first six characters `"Error:"`, whether or not it gets truncated. -/
theorem validateAndLimit_bedrockError_take6 (e : Str) :
    (ExtractV2.validateAndLimit (ExtractV2.bedrockErrorText e)).take 6
      = "Error:".toList := by
  have hmem : 'E' ∈ ExtractV2.bedrockErrorText e := by
    unfold ExtractV2.bedrockErrorText
    exact List.mem_append_left _ (by decide)
  have hnil : ExtractV2.bedrockErrorText e ≠ [] := List.ne_nil_of_mem hmem
  have hT : pyTruthy (ExtractV2.bedrockErrorText e) = true := by
    unfold pyTruthy
    simp [hnil]
  have hs : (pyStrip (ExtractV2.bedrockErrorText e)).length ≠ 0 := by
    intro h
    exact pyStrip_ne_nil hmem (by decide) (List.length_eq_zero.1 h)
  have htake : (ExtractV2.bedrockErrorText e).take 6 = "Error:".toList := by
    unfold ExtractV2.bedrockErrorText
    rw [List.take_append_of_le_length (by decide)]
    decide
  unfold ExtractV2.validateAndLimit
  rw [if_neg (not_or.2 ⟨not_not.2 hT, hs⟩)]
  by_cases hbig : 15000 < (ExtractV2.bedrockErrorText e).length
  · rw [if_pos hbig]
    have h6 : 6 ≤ ((ExtractV2.bedrockErrorText e).take 15000).length := by
      rw [List.length_take]
      omega
    rw [List.take_append_of_le_length h6, List.take_take]
    have hmin : min 6 15000 = 6 := by norm_num
    rw [hmin, htake]
  · rw [if_neg hbig]
    exact htake

/-- **C9.** When the quick OCR attempt fails and the vision fallback raises,
the `extract_lambda_v2` handler does not mark the run `FAILED`: it stores a
blob beginning with `"Error:"`, updates the record to `EXTRACTED` and
answers HTTP 200 with body status `EXTRACTED`. -/
theorem c9_failed_extraction_reports_extracted
    (remaining : Nat) (ext : Str) (resp : Option (List ExtractV2.Block))
    (tl : Bool) (e : Str)
    (hq : ExtractV2.quickTextractAttempt ext resp tl = none) :
    ((ExtractV2.handlerRun remaining ext resp tl (.error e)).storedText).take 6
      = "Error:".toList
    ∧ (ExtractV2.handlerRun remaining ext resp tl (.error e)).recordStatus
      = "EXTRACTED".toList
    ∧ (ExtractV2.handlerRun remaining ext resp tl (.error e)).httpStatus = 200
    ∧ (ExtractV2.handlerRun remaining ext resp tl (.error e)).bodyStatus
      = "EXTRACTED".toList := by
  have hchoose : ExtractV2.chooseExtraction remaining ext resp tl (.error e)
      = ("bedrock_direct".toList, ExtractV2.bedrockErrorText e) := by
    unfold ExtractV2.chooseExtraction
    by_cases hr : 20000 < remaining
    · rw [if_pos hr, hq]
      rfl
    · rw [if_neg hr]
      rfl
  have hst : (ExtractV2.handlerRun remaining ext resp tl (.error e)).storedText
      = ExtractV2.validateAndLimit
          (ExtractV2.chooseExtraction remaining ext resp tl (.error e)).2 := rfl
  refine ⟨?_, rfl, rfl, rfl⟩
  rw [hst, hchoose]
  exact validateAndLimit_bedrockError_take6 e

/-- Concrete instance of C9: a raised Textract call plus a raised Bedrock
call still yields an `"Error:"`-prefixed blob, status `EXTRACTED`, HTTP
200. -/
theorem c9_witness :
    ((ExtractV2.handlerRun 25000 "pdf".toList none false
        (.error "timeout".toList)).storedText).take 6 = "Error:".toList
    ∧ (ExtractV2.handlerRun 25000 "pdf".toList none false
        (.error "timeout".toList)).recordStatus = "EXTRACTED".toList
    ∧ (ExtractV2.handlerRun 25000 "pdf".toList none false
        (.error "timeout".toList)).httpStatus = 200 := by
  have h := c9_failed_extraction_reports_extracted 25000 "pdf".toList none
    false "timeout".toList rfl
  exact ⟨h.1, h.2.1, h.2.2.1⟩

/-- **C10.** A run record in state `COMPLETED` with no (or an empty)
`analysisResult` attribute is not short-circuited by the analyze entry
point: the duplicate checks fall through, the record is reset to
`PROCESSING_ASYNC`, and the background worker is dispatched again. -/
theorem c10_completed_without_result_redispatches
    (rec : AnalyzeAsync.RunRecord) (f : Str)
    (h1 : rec.status = "COMPLETED".toList)
    (h2 : rec.analysisResult = [])
    (h3 : rec.fileKey = some f) :
    AnalyzeAsync.handler (some rec) false =
      { statusCode := 202, bodyStatus := "PROCESSING".toList,
        cachedAnalysis := none,
        statusUpdates := ["PROCESSING_ASYNC".toList],
        errorRecorded := none, workerDispatched := true } := by
  have e1 : "COMPLETED".toList ≠ "PROCESSING_ASYNC".toList := by decide
  have e2 : "COMPLETED".toList ≠ "ANALYZING".toList := by decide
  simp [AnalyzeAsync.handler, h1, h2, h3, e1, e2, pyTruthy]

/-- Concrete instance of C10: status `COMPLETED` with `analysisResult`
absent leads to a re-dispatch. -/
theorem c10_witness :
    AnalyzeAsync.handler
      (some { status := "COMPLETED".toList, analysisResult := [],
              fileKey := some "uploads/doc.pdf".toList }) false =
      { statusCode := 202, bodyStatus := "PROCESSING".toList,
        cachedAnalysis := none,
        statusUpdates := ["PROCESSING_ASYNC".toList],
        errorRecorded := none, workerDispatched := true } :=
  c10_completed_without_result_redispatches _ "uploads/doc.pdf".toList
    rfl rfl rfl

/-- **C1 (counterexample).** A record already in state `COMPLETED` — but
with an empty `analysisResult` — is *not* answered from cache: the handler
dispatches the background worker again, contradicting the claim that every
`COMPLETED` run is short-circuited with the cached result. -/
theorem c1_counterexample :
    (AnalyzeAsync.handler
      (some { status := "COMPLETED".toList, analysisResult := [],
              fileKey := some "uploads/contrato.pdf".toList }) false).workerDispatched
      = true
    ∧ (AnalyzeAsync.handler
      (some { status := "COMPLETED".toList, analysisResult := [],
              fileKey := some "uploads/contrato.pdf".toList }) false).cachedAnalysis
      = none := by
  constructor <;> decide

/-- **C1 (amended).** A request for a run whose record is `COMPLETED` *and
carries a non-empty `analysisResult`* is answered with the cached result and
no worker dispatch; a request for a run in `PROCESSING_ASYNC` or `ANALYZING`
is answered "still processing" (HTTP 202) with no worker dispatch. -/
theorem c1_duplicate_checks
    (rec : AnalyzeAsync.RunRecord) (invokeRaises : Bool) :
    (rec.status = "COMPLETED".toList → pyTruthy rec.analysisResult = true →
      AnalyzeAsync.handler (some rec) invokeRaises =
        { statusCode := 200, bodyStatus := "COMPLETED".toList,
          cachedAnalysis := some rec.analysisResult, statusUpdates := [],
          errorRecorded := none, workerDispatched := false })
    ∧ (rec.status = "PROCESSING_ASYNC".toList
        ∨ rec.status = "ANALYZING".toList →
      AnalyzeAsync.handler (some rec) invokeRaises =
        { statusCode := 202, bodyStatus := "PROCESSING".toList,
          cachedAnalysis := none, statusUpdates := [],
          errorRecorded := none, workerDispatched := false }) := by
  constructor
  · intro h1 h2
    simp [AnalyzeAsync.handler, h1, h2]
  · intro h
    have e1 : "PROCESSING_ASYNC".toList ≠ "COMPLETED".toList := by decide
    have e2 : "ANALYZING".toList ≠ "COMPLETED".toList := by decide
    rcases h with h | h <;> simp [AnalyzeAsync.handler, h, e1, e2]

/-- Concrete instances of the amended C1: cached answer for a `COMPLETED`
record with a result, "still processing" for a `PROCESSING_ASYNC` record. -/
theorem c1_witness :
    AnalyzeAsync.handler
      (some { status := "COMPLETED".toList,
              analysisResult := "resultado".toList,
              fileKey := some "doc1.pdf".toList }) false =
      { statusCode := 200, bodyStatus := "COMPLETED".toList,
        cachedAnalysis := some "resultado".toList, statusUpdates := [],
        errorRecorded := none, workerDispatched := false }
    ∧ AnalyzeAsync.handler
      (some { status := "PROCESSING_ASYNC".toList, analysisResult := [],
              fileKey := some "doc1.pdf".toList }) false =
      { statusCode := 202, bodyStatus := "PROCESSING".toList,
        cachedAnalysis := none, statusUpdates := [],
        errorRecorded := none, workerDispatched := false } :=
  ⟨(c1_duplicate_checks _ false).1 rfl rfl,
    (c1_duplicate_checks _ false).2 (Or.inl rfl)⟩

/-- **C2 (counterexample).** The blob stored by the plain `extract_lambda.py`
handler — the one the CDK stack deploys — is not truncated: raw text of
16000 characters is stored at full length, exceeding the 15000-character cap
plus the truncation marker. -/
theorem c2_counterexample :
    ¬ ((ExtractBasic.storedBlob (List.replicate 16000 'a')).length
        ≤ 15000 + ExtractV2.truncMarker.length) := by
  have hc : ¬ (¬ pyTruthy (List.replicate 16000 'a')
      ∨ (pyStrip (List.replicate 16000 'a')).length = 0) := by
    rw [pyStrip_replicate_a, List.length_replicate]
    exact not_or.2 ⟨not_not.2 (by decide), by norm_num⟩
  have hb : ExtractBasic.storedBlob (List.replicate 16000 'a')
      = List.replicate 16000 'a' := by
    unfold ExtractBasic.storedBlob ExtractBasic.validateText
    rw [if_neg hc]
  rw [hb, List.length_replicate]
  have hm : ExtractV2.truncMarker.length = 43 := by decide
  omega

/-- **C2 (amended).** In the `extract_lambda_v2.py` handler the stored blob
never exceeds 15000 characters plus the truncation marker, and raw text
longer than 15000 characters (that is neither falsy nor whitespace-only) is
stored as its first 15000 characters with the marker appended; the plain
`extract_lambda.py` handler performs no truncation at all. -/
theorem c2_truncation_v2 (t : Str) :
    (ExtractV2.validateAndLimit t).length ≤ 15000 + ExtractV2.truncMarker.length
    ∧ ((pyStrip t).length ≠ 0 → 15000 < t.length →
        ExtractV2.validateAndLimit t
          = t.take 15000 ++ ExtractV2.truncMarker) := by
  constructor
  · unfold ExtractV2.validateAndLimit
    split_ifs with h1 h2
    · decide
    · rw [List.length_append, List.length_take]
      omega
    · omega
  · intro hs hbig
    have hT : pyTruthy t = true := by
      unfold pyTruthy
      cases t with
      | nil => exact absurd (by rfl) hs
      | cons a l => rfl
    unfold ExtractV2.validateAndLimit
    rw [if_neg (not_or.2 ⟨not_not.2 hT, hs⟩), if_pos hbig]

/-- Concrete instance of the amended C2: 16000 characters are stored as the
first 15000 plus the marker, within the cap. -/
theorem c2_witness :
    ExtractV2.validateAndLimit (List.replicate 16000 'a')
      = (List.replicate 16000 'a').take 15000 ++ ExtractV2.truncMarker
    ∧ (ExtractV2.validateAndLimit (List.replicate 16000 'a')).length
        ≤ 15000 + ExtractV2.truncMarker.length := by
  have h := c2_truncation_v2 (List.replicate 16000 'a')
  refine ⟨h.2 ?_ ?_, h.1⟩
  · rw [pyStrip_replicate_a, List.length_replicate]
    norm_num
  · rw [List.length_replicate]
    norm_num

/-- **C3 (counterexample).** `analyze_lambda_improved.py` does *not* reject
loaded text beginning with `"Error:"`: an `"Error:"`-prefixed blob of
stripped length at least 10 passes its validation and is sent to the
generation service, and no document-vision fallback exists there. -/
theorem c3_counterexample :
    (AnalyzeImproved.handler (some "extracted/r1.txt".toList)
        (.ok "Error: documento ilegible sin contenido".toList) none
        (.error []) (.ok "analisis generado".toList)).textUsed
      = some "Error: documento ilegible sin contenido".toList
    ∧ (AnalyzeImproved.handler (some "extracted/r1.txt".toList)
        (.ok "Error: documento ilegible sin contenido".toList) none
        (.error []) (.ok "analisis generado".toList)).statusCode = 200 := by
  constructor <;> decide

/-- **C3 (amended).** In `analyze_lambda_final.py`, a loaded text that
begins with `"Error:"` or has stripped length below 100 is rejected and the
handler analyses the original document with vision instead; and in
`analyze_lambda_improved.py` an explicitly supplied, non-empty text blob is
preferred — the reconstructed default path is never consulted.
`analyze_lambda_improved.py`, however, accepts `"Error:"`-prefixed text of
stripped length ≥ 10 and raises rather than falling back when text is
invalid. -/
theorem c3_text_source_resolution :
    (∀ (k t f vr : Str) (tb : Except Str Str),
      (pyStartsWith t "Error:".toList = true ∨ (pyStrip t).length < 100) →
      AnalyzeFinal.handler (some k) (.ok t) (some f) (.ok vr) tb =
        { statusCode := 200, method := "document_vision".toList,
          analysis := some vr, statusUpdates := ["COMPLETED".toList],
          errorRecorded := none, reRaised := false })
    ∧ (∀ (k t : Str) (db : Option Str) (rc : Except Str Str),
        t.isEmpty = false →
        AnalyzeImproved.resolveText (some k) (.ok t) db rc
          = (some t, "s3".toList)) := by
  constructor
  · intro k t f vr tb h
    have hv : (AnalyzeFinal.resolveText (some k) (Except.ok t)).2 = true := by
      unfold AnalyzeFinal.resolveText
      dsimp only
      rw [decide_eq_true_eq]
      exact h
    unfold AnalyzeFinal.handler
    dsimp only
    rw [if_pos ⟨hv, rfl⟩]
  · intro k t db rc h
    unfold AnalyzeImproved.resolveText
    simp [AnalyzeImproved.falsyText, h]

/-- Concrete instances of the amended C3: an `"Error:"`-prefixed blob routes
`analyze_lambda_final` to document vision, and a valid explicit blob wins
the `analyze_lambda_improved` resolution. -/
theorem c3_witness :
    (AnalyzeFinal.handler (some "k.txt".toList)
        (.ok "Error: fallo".toList) (some "uploads/d.pdf".toList)
        (.ok "vision".toList) (.ok "texto".toList)).method
      = "document_vision".toList
    ∧ AnalyzeImproved.resolveText (some "k.txt".toList)
        (.ok "texto valido".toList) (some "99 caracteres".toList)
        (.error []) = (some "texto valido".toList, "s3".toList) := by
  constructor
  · rw [c3_text_source_resolution.1 "k.txt".toList "Error: fallo".toList
      "uploads/d.pdf".toList "vision".toList (.ok "texto".toList)
      (Or.inl (by decide))]
  · exact c3_text_source_resolution.2 "k.txt".toList "texto valido".toList
      (some "99 caracteres".toList) (.error []) (by decide)

/-- Every outcome of `AnalyzeFinal.textBranch` is either the bare 500
failure response or an HTTP 200 success. -/
theorem textBranch_cases (et : Option Str) (txt : Except Str Str) :
    AnalyzeFinal.textBranch et txt = AnalyzeFinal.failureResponse
    ∨ (AnalyzeFinal.textBranch et txt).statusCode = 200 := by
  unfold AnalyzeFinal.textBranch
  cases et with
  | none => exact Or.inl rfl
  | some t =>
    dsimp only
    by_cases h : 50 < (pyStrip t).length
    · rw [if_pos h]
      cases txt with
      | ok r => exact Or.inr rfl
      | error e => exact Or.inl rfl
    · rw [if_neg h]
      exact Or.inl rfl

/-- Every outcome of the `analyze_lambda_final` handler is either the bare
500 failure response (record untouched, nothing re-raised) or an HTTP 200
success. -/
theorem analyzeFinal_cases (tk : Option Str) (s3 : Except Str Str)
    (fk : Option Str) (vis txt : Except Str Str) :
    AnalyzeFinal.handler tk s3 fk vis txt = AnalyzeFinal.failureResponse
    ∨ (AnalyzeFinal.handler tk s3 fk vis txt).statusCode = 200 := by
  unfold AnalyzeFinal.handler
  dsimp only
  by_cases hc : ((AnalyzeFinal.resolveText tk s3).2 = true)
      ∧ (fk.isSome = true)
  · rw [if_pos hc]
    cases vis with
    | ok r => exact Or.inr rfl
    | error e =>
      by_cases he : (AnalyzeFinal.resolveText tk s3).1 = none
      · rw [if_pos he]
        exact Or.inl rfl
      · rw [if_neg he]
        exact textBranch_cases _ _
  · rw [if_neg hc]
    exact textBranch_cases _ _

/-- **C4 (counterexample).** On the synchronous `analyze_lambda_final` path
a resolution failure (no text source and no original file) produces an HTTP
500 response with *no* record update and *no* re-raise — contradicting the
claim that every analysis failure records `FAILED` and re-raises on the
synchronous path. -/
theorem c4_counterexample :
    (AnalyzeFinal.handler none (.error []) none (.error [])
        (.ok [])).statusCode = 500
    ∧ (AnalyzeFinal.handler none (.error []) none (.error [])
        (.ok [])).statusUpdates = []
    ∧ (AnalyzeFinal.handler none (.error []) none (.error [])
        (.ok [])).reRaised = false := by
  refine ⟨rfl, rfl, rfl⟩

/-- **C4 (amended).** On the asynchronous worker path
(`process_async_lambda.py`), every failing run whose record was located —
missing `fileKey`, S3 document-read error, or generation-service error —
ends with the run record updated to `FAILED` carrying an error message
truncated to at most 500 characters, and re-raises; when no record is found
for the run id the worker re-raises with no record update at all (the
exception fires before the record keys are in scope).  The synchronous
`analyze_lambda_final` entry point instead turns every failure into an
HTTP 500 response with no record update and no re-raise. -/
theorem c4_failure_recording :
    (∀ (rec : ProcessAsync.RunRecord) (s3 : Except Str (List UInt8))
        (br : Except Str Str),
      (ProcessAsync.handler (some rec) s3 br).statusCode = none →
      (ProcessAsync.handler (some rec) s3 br).reRaised = true
      ∧ ∃ m : Str, m.length ≤ 500 ∧
          (ProcessAsync.handler (some rec) s3 br).statusUpdates.getLast?
            = some ("FAILED".toList, some m))
    ∧ (∀ (s3 : Except Str (List UInt8)) (br : Except Str Str),
        (ProcessAsync.handler none s3 br).reRaised = true
        ∧ (ProcessAsync.handler none s3 br).statusUpdates = [])
    ∧ (∀ (tk : Option Str) (s3 : Except Str Str) (fk : Option Str)
        (vis txt : Except Str Str),
        (AnalyzeFinal.handler tk s3 fk vis txt).statusCode = 500 →
        (AnalyzeFinal.handler tk s3 fk vis txt).statusUpdates = []
        ∧ (AnalyzeFinal.handler tk s3 fk vis txt).reRaised = false) := by
  refine ⟨?_, ?_, ?_⟩
  · intro rec s3 br h
    obtain ⟨fk⟩ := rec
    cases fk with
    | none =>
      exact ⟨rfl, ("No fileKey found in record".toList).take 500,
        by decide, rfl⟩
    | some f =>
      cases s3 with
      | error e =>
        exact ⟨rfl, e.take 500, by simp [List.length_take_le], rfl⟩
      | ok doc =>
        cases br with
        | error e =>
          exact ⟨rfl, e.take 500, by simp [List.length_take_le], rfl⟩
        | ok r => simp [ProcessAsync.handler] at h
  · intro s3 br
    exact ⟨rfl, rfl⟩
  · intro tk s3 fk vis txt h
    rcases analyzeFinal_cases tk s3 fk vis txt with hf | h200
    · rw [hf]
      exact ⟨rfl, rfl⟩
    · rw [h200] at h
      exact absurd h (by decide)

/-- Concrete instances of the amended C4: each located-record failure mode
of the worker (missing fileKey, S3 error, Bedrock error) ends in a
truncated `FAILED` update and a re-raise, the no-record failure re-raises
with no update, and a failing synchronous request yields 500 with no
update. -/
theorem c4_witness :
    ((ProcessAsync.handler (some { fileKey := none }) (.ok [])
        (.ok [])).reRaised = true
      ∧ ∃ m : Str, m.length ≤ 500 ∧
          (ProcessAsync.handler (some { fileKey := none }) (.ok [])
            (.ok [])).statusUpdates.getLast?
            = some ("FAILED".toList, some m))
    ∧ ((ProcessAsync.handler (some { fileKey := some "doc.pdf".toList })
        (.error "denied".toList) (.ok [])).reRaised = true
      ∧ ∃ m : Str, m.length ≤ 500 ∧
          (ProcessAsync.handler (some { fileKey := some "doc.pdf".toList })
            (.error "denied".toList) (.ok [])).statusUpdates.getLast?
            = some ("FAILED".toList, some m))
    ∧ ((ProcessAsync.handler (some { fileKey := some "doc.pdf".toList })
        (.ok []) (.error "boom".toList)).reRaised = true
      ∧ ∃ m : Str, m.length ≤ 500 ∧
          (ProcessAsync.handler (some { fileKey := some "doc.pdf".toList })
            (.ok []) (.error "boom".toList)).statusUpdates.getLast?
            = some ("FAILED".toList, some m))
    ∧ ((ProcessAsync.handler none (.ok []) (.ok [])).reRaised = true
      ∧ (ProcessAsync.handler none (.ok []) (.ok [])).statusUpdates = [])
    ∧ ((AnalyzeFinal.handler none (.ok []) none (.error [])
        (.error [])).statusUpdates = []
      ∧ (AnalyzeFinal.handler none (.ok []) none (.error [])
        (.error [])).reRaised = false) :=
  ⟨c4_failure_recording.1 { fileKey := none } (.ok []) (.ok []) rfl,
    c4_failure_recording.1 { fileKey := some "doc.pdf".toList }
      (.error "denied".toList) (.ok []) rfl,
    c4_failure_recording.1 { fileKey := some "doc.pdf".toList }
      (.ok []) (.error "boom".toList) rfl,
    c4_failure_recording.2.1 (.ok []) (.ok []),
    c4_failure_recording.2.2 none (.ok []) none (.error []) (.error []) rfl⟩

/-- **C6 (counterexample).** `process_document_with_bedrock_direct` in
`extract_lambda_v2.py` does not reject an oversized document: a document of
4.5 MB + 1 byte is sent to the generation service anyway (the size check
only logs). -/
theorem c6_counterexample :
    2 * 1048576 < (List.replicate 4718593 (0 : UInt8)).length
    ∧ (ExtractV2.processDocumentWithBedrockDirect true
        (List.replicate 4718593 (0 : UInt8))
        (.ok "texto".toList)).wasRejected = false := by
  constructor
  · rw [List.length_replicate]
    norm_num
  · rfl

/-- **C6 (amended).** In `extract_lambda_backup.py`'s vision fallback, a
document larger than the 2 MB ceiling is rejected by raising before any
request is sent to the generation service; the `extract_lambda_v2.py`
direct-vision path only logs its 4.5 MB comparison and sends the document
anyway. -/
theorem c6_backup_vision_rejects_oversize (doc : List UInt8)
    (call : Except Str Str) (h : 2 * 1048576 < doc.length) :
    ExtractBackup.processWithBedrockVision true doc call =
      .rejectedBeforeSend
        "Documento grande requiere procesamiento especial".toList := by
  unfold ExtractBackup.processWithBedrockVision
  rw [if_neg (by simp), if_pos h]

/-- Concrete instance of the amended C6: a 2 MB + 1 byte document is
rejected before sending. -/
theorem c6_witness :
    ExtractBackup.processWithBedrockVision true
      (List.replicate 2097153 (0 : UInt8)) (.ok "t".toList) =
      .rejectedBeforeSend
        "Documento grande requiere procesamiento especial".toList :=
  c6_backup_vision_rejects_oversize _ _
    (by rw [List.length_replicate]; norm_num)
